import Mathlib

/-!
Shallow embedding of the transpiler's core (src/types.ts and
src/modules/jsonSchema.ts): TypeScript type-graph nodes are modelled as records
of the attributes the code reads (numeric flag bitsets, optional symbol,
optional literal value, optional intrinsic name, the target's object flags),
JSON Schema fragments as an inductive mirroring the JsonSchema union type, and
each source function as a Lean function over these records.  JavaScript
bitwise-and on the small non-negative flag constants is Nat.land; JavaScript
truthiness of a number is the test that it is nonzero.
-/

set_option autoImplicit false

/-! ## Flag constants (values from the typescript library) -/

namespace TypeFlags

def Any : Nat := 1
def String : Nat := 4
def Number : Nat := 8
def Boolean : Nat := 16
def BigInt : Nat := 64
def StringLiteral : Nat := 128
def NumberLiteral : Nat := 256
def BooleanLiteral : Nat := 512
def EnumLiteral : Nat := 1024
def BigIntLiteral : Nat := 2048
def Void : Nat := 16384
def Undefined : Nat := 32768
def Null : Nat := 65536
def Never : Nat := 131072
def TypeParameter : Nat := 262144
def Object : Nat := 524288
def Union : Nat := 1048576
def Intersection : Nat := 2097152

end TypeFlags

namespace ObjectFlags

def Reference : Nat := 4
def Tuple : Nat := 8

end ObjectFlags

/-- ts.SyntaxKind.ClassDeclaration: the numeric kind tag of a class declaration node. -/
def kindClassDeclaration : Nat := 240

/-- ts.SyntaxKind.InterfaceDeclaration. -/
def kindInterfaceDeclaration : Nat := 241

/-- ts.SyntaxKind.TypeAliasDeclaration. -/
def kindTypeAliasDeclaration : Nat := 242

/-- ts.SyntaxKind.EnumDeclaration. -/
def kindEnumDeclaration : Nat := 243

/-! ## Type-graph node model -/

/-- The value carried by a ts.LiteralType: a string or a number.  Synthetic
boolean literals carry no value (modelled by `Option TSValue = none`). -/
inductive TSValue where
  | str : String → TSValue
  | num : Int → TSValue
deriving DecidableEq

/-- The slice of ts.Symbol the embedded code reads. -/
structure TSSymbol where
  escapedName : String
  flags : Nat
deriving DecidableEq

/-- The slice of ts.Type the embedded code reads.  `targetObjectFlags` stands
for `type.target.objectFlags`, the only attribute of a reference's target the
code consults. -/
structure TSType where
  flags : Nat
  objectFlags : Nat
  symbol : Option TSSymbol
  value : Option TSValue
  intrinsicName : Option String
  targetObjectFlags : Nat
deriving DecidableEq

/-- The slice of ts.Node the embedded code reads: its numeric syntax-kind tag. -/
structure TSNode where
  kind : Nat
deriving DecidableEq

/-! ## Classifier predicates (src/types.ts) -/

/-- ts.isInterfaceDeclaration: the node's kind is InterfaceDeclaration. -/
def isInterfaceDeclaration (node : TSNode) : Bool :=
  decide (node.kind = kindInterfaceDeclaration)

/-- ts.isTypeAliasDeclaration. -/
def isTypeAliasDeclaration (node : TSNode) : Bool :=
  decide (node.kind = kindTypeAliasDeclaration)

/-- ts.isEnumDeclaration. -/
def isEnumDeclaration (node : TSNode) : Bool :=
  decide (node.kind = kindEnumDeclaration)

/-- ts.isClassDeclaration. -/
def isClassDeclaration (node : TSNode) : Bool :=
  decide (node.kind = kindClassDeclaration)

/-- types.ts isTranspilable. -/
def isTranspilable (node : TSNode) : Bool :=
  isInterfaceDeclaration node ||
  isTypeAliasDeclaration node ||
  isEnumDeclaration node ||
  isClassDeclaration node

/-- types.ts isLiteral: flags include StringLiteral, NumberLiteral or
BooleanLiteral. -/
def isLiteral (type : TSType) : Bool :=
  decide (type.flags &&& TypeFlags.StringLiteral ≠ 0) ||
  decide (type.flags &&& TypeFlags.NumberLiteral ≠ 0) ||
  decide (type.flags &&& TypeFlags.BooleanLiteral ≠ 0)

/-- types.ts isBigIntLiteral. -/
def isBigIntLiteral (type : TSType) : Bool :=
  decide (type.flags &&& TypeFlags.BigIntLiteral ≠ 0)

/-- types.ts isPrimitive. -/
def isPrimitive (type : TSType) : Bool :=
  decide (type.flags &&& TypeFlags.Any ≠ 0) ||
  decide (type.flags &&& TypeFlags.String ≠ 0) ||
  decide (type.flags &&& TypeFlags.Number ≠ 0) ||
  decide (type.flags &&& TypeFlags.BigInt ≠ 0) ||
  decide (type.flags &&& TypeFlags.Boolean ≠ 0) ||
  decide (type.flags &&& TypeFlags.Void ≠ 0) ||
  decide (type.flags &&& TypeFlags.Undefined ≠ 0) ||
  decide (type.flags &&& TypeFlags.Null ≠ 0) ||
  decide (type.flags &&& TypeFlags.Never ≠ 0)

/-- types.ts isDefined: the negation of the Undefined-flag test. -/
def isDefined (type : TSType) : Bool :=
  !decide (type.flags &&& TypeFlags.Undefined ≠ 0)

/-- types.ts isLiteralTrue: no concrete value and intrinsicName equal to
'true'. -/
def isLiteralTrue (type : TSType) : Bool :=
  decide (type.value = none) && decide (type.intrinsicName = some "true")

/-- types.ts isLiteralFalse. -/
def isLiteralFalse (type : TSType) : Bool :=
  decide (type.value = none) && decide (type.intrinsicName = some "false")

/-- types.ts isUnionBoolean: the constituent list (already filtered of
undefineds by the caller) has exactly two entries, both literals, one the
synthetic true literal and the other the synthetic false literal. -/
def isUnionBoolean (types : List TSType) : Bool :=
  match types with
  | [typeA, typeB] =>
    if !isLiteral typeA || !isLiteral typeB then false
    else
      (isLiteralTrue typeA && isLiteralFalse typeB) ||
      (isLiteralTrue typeB && isLiteralFalse typeA)
  | _ => false

/-- types.ts isObject: flags include the Object bit. -/
def isObject (type : TSType) : Bool :=
  decide (type.flags &&& TypeFlags.Object ≠ 0)

/-- types.ts isReference: objectFlags include the Reference bit. -/
def isReference (type : TSType) : Bool :=
  decide (type.objectFlags &&& ObjectFlags.Reference ≠ 0)

/-- types.ts isArray: an object reference whose symbol exists and is named
'Array'. -/
def isArray (type : TSType) : Bool :=
  isObject type && isReference type &&
    (match type.symbol with
     | some s => decide (s.escapedName = "Array")
     | none => false)

/-- types.ts isTuple: an object reference whose target's objectFlags include
the Tuple bit. -/
def isTuple (type : TSType) : Bool :=
  isObject type && isReference type &&
    decide (type.targetObjectFlags &&& ObjectFlags.Tuple ≠ 0)

/-- types.ts isEnum: flags include both EnumLiteral and Union. -/
def isEnum (type : TSType) : Bool :=
  decide (type.flags &&& TypeFlags.EnumLiteral ≠ 0) &&
  decide (type.flags &&& TypeFlags.Union ≠ 0)

/-- types.ts isUndefined: flags include the Undefined bit. -/
def isUndefined (type : TSType) : Bool :=
  decide (type.flags &&& TypeFlags.Undefined ≠ 0)

/-- types.ts isGenericType: flags include TypeParameter. -/
def isGenericType (type : TSType) : Bool :=
  decide (type.flags &&& TypeFlags.TypeParameter ≠ 0)

/-- types.ts isUnion: flags include the Union bit. -/
def isUnion (type : TSType) : Bool :=
  decide (type.flags &&& TypeFlags.Union ≠ 0)

/-- types.ts isIntersection: flags include the Intersection bit. -/
def isIntersection (type : TSType) : Bool :=
  decide (type.flags &&& TypeFlags.Intersection ≠ 0)

/-! ## JSON Schema fragments (src/modules/jsonSchema.ts) -/

/-- jsonSchema.ts JsonSchemaLiteral: string | number | boolean. -/
inductive JsonSchemaLiteral where
  | str : String → JsonSchemaLiteral
  | num : Int → JsonSchemaLiteral
  | bool : Bool → JsonSchemaLiteral
deriving DecidableEq

/-- jsonSchema.ts JsonSchema: a literal, or a complex node with the optional
fields additionalProperties, allOf, description, enum, items (one fragment or
a positional list), patternProperties, properties, required and type, in that
order.  The enum field holds JsonSchema values because the source's
`schema as JsonSchemaLiteral` cast is erased at runtime. -/
inductive JsonSchema where
  | lit : JsonSchemaLiteral → JsonSchema
  | complex :
      Option Bool →
      Option (List JsonSchema) →
      Option String →
      Option (List JsonSchema) →
      Option (JsonSchema ⊕ List JsonSchema) →
      Option (List (String × JsonSchema)) →
      Option (List (String × JsonSchema)) →
      Option (List String) →
      Option String →
      JsonSchema

/-- The `enum` field of a fragment (none on a literal fragment). -/
def JsonSchema.enumField : JsonSchema → Option (List JsonSchema)
  | .lit _ => none
  | .complex _ _ _ e _ _ _ _ _ => e

/-- The `items` field of a fragment. -/
def JsonSchema.itemsField : JsonSchema → Option (JsonSchema ⊕ List JsonSchema)
  | .lit _ => none
  | .complex _ _ _ _ i _ _ _ _ => i

/-- The `type` field of a fragment. -/
def JsonSchema.typeField : JsonSchema → Option String
  | .lit _ => none
  | .complex _ _ _ _ _ _ _ _ t => t

/-- The `properties` field of a fragment. -/
def JsonSchema.propertiesField : JsonSchema → Option (List (String × JsonSchema))
  | .lit _ => none
  | .complex _ _ _ _ _ _ p _ _ => p

/-- The `required` field of a fragment. -/
def JsonSchema.requiredField : JsonSchema → Option (List String)
  | .lit _ => none
  | .complex _ _ _ _ _ _ _ r _ => r

/-- The empty fragment `{}` (all fields absent), as written in the spec for
the `any` mapping. -/
def emptyFragment : JsonSchema :=
  .complex none none none none none none none none none

/-- The fragment `{type: s}` with only the type field present, as written in
the spec for the primitive mappings. -/
def fragmentType (s : String) : JsonSchema :=
  .complex none none none none none none none none (some s)

/-- The fragment the spec gives for `never`:
`{description:"This is a never type", allOf:[{type:"string"},{type:"number"}]}`. -/
def neverFragment : JsonSchema :=
  .complex none (some [fragmentType "string", fragmentType "number"])
    (some "This is a never type") none none none none none none

/-! ## Schema builders (src/modules/jsonSchema.ts) -/

/-- jsonSchema.ts buildLiteral: the value itself. -/
def buildLiteral (literal : JsonSchemaLiteral) : JsonSchema :=
  .lit literal

/-- jsonSchema.ts buildAny: `{}`. -/
def buildAny : JsonSchema :=
  .complex none none none none none none none none none

/-- jsonSchema.ts buildPrimitive: the switch on the primitive-kind tag; any
unmapped tag throws `Unsupported type please open an issue on github`. -/
def buildPrimitive (type : String) : Except String JsonSchema :=
  if type = "any" then .ok buildAny
  else if type = "void" then
    .ok (.complex none none none none none none none none (some "undefined"))
  else if type = "null" then
    .ok (.complex none none none none none none none none (some "null"))
  else if type = "undefined" then
    .ok (.complex none none none none none none none none (some "undefined"))
  else if type = "never" then
    .ok (.complex none
      (some [.complex none none none none none none none none (some "string"),
             .complex none none none none none none none none (some "number")])
      (some "This is a never type") none none none none none none)
  else if type = "string" then
    .ok (.complex none none none none none none none none (some "string"))
  else if type = "number" then
    .ok (.complex none none none none none none none none (some "number"))
  else if type = "boolean" then
    .ok (.complex none none none none none none none none (some "boolean"))
  else .error "Unsupported type please open an issue on github"

/-- jsonSchema.ts buildArray: `{type:'array', items: resolvedType}`. -/
def buildArray (resolvedType : JsonSchema) : JsonSchema :=
  .complex none none none none (some (Sum.inl resolvedType)) none none none (some "array")

/-- jsonSchema.ts buildTuple: `{type:'array', items: resolvedTypes}`. -/
def buildTuple (resolvedTypes : List JsonSchema) : JsonSchema :=
  .complex none none none none (some (Sum.inr resolvedTypes)) none none none (some "array")

/-- jsonSchema.ts buildEnum: `{enum: resolvedEnum.map(([_, schema]) => schema)}`
(the cast to JsonSchemaLiteral is a no-op at runtime). -/
def buildEnum (resolvedEnum : List (String × JsonSchema)) : JsonSchema :=
  .complex none none none (some (resolvedEnum.map (fun p => p.2))) none none none none none

/-- A member descriptor as consumed by buildObject: `{isOptional, name,
resolvedType}`. -/
structure SchemaProperty where
  isOptional : Bool
  name : String
  resolvedType : JsonSchema

/-- JavaScript object-assignment semantics for `schema.properties[name] =
resolvedType` on an insertion-ordered object: overwrite the value in place if
the key exists, append otherwise. -/
def setProp : List (String × JsonSchema) → String → JsonSchema → List (String × JsonSchema)
  | [], name, v => [(name, v)]
  | (k, w) :: rest, name, v =>
    if k = name then (k, v) :: rest else (k, w) :: setProp rest name v

/-- jsonSchema.ts buildObject: one pass over the members pushing the name onto
`required` when not optional and assigning `properties[name]`, then the
`required` key is deleted when its length is 0. -/
def buildObject (properties : List SchemaProperty) : JsonSchema :=
  let folded := properties.foldl
    (fun (st : List (String × JsonSchema) × List String) p =>
      (setProp st.1 p.name p.resolvedType,
       if !p.isOptional then st.2 ++ [p.name] else st.2))
    ([], [])
  .complex (some false) none none none none none (some folded.1)
    (if folded.2.length = 0 then none else some folded.2) (some "object")

/-- jsonSchema.ts buildIndexableObject. -/
def buildIndexableObject (resolvedType : JsonSchema) : JsonSchema :=
  .complex (some false) none none none none (some [(".*", resolvedType)])
    (some []) none (some "object")

/-- Modelled from the spec: the Resolver's union-resolution step is code of
this repository that is not under src/ (src/ holds only the classifier and the
builders).  Spec section 4.3: "Union resolution: filter constituents to
defined types; if exactly two remain and they form the boolean-union pattern,
resolve to the primitive-boolean fragment; otherwise resolve to an enum-style
... combination".  Per the Builder contract the already-resolved constituent
fragments are passed in alongside the raw constituents. -/
def resolveUnion (constituents : List TSType)
    (resolvedPairs : List (String × JsonSchema)) : Except String JsonSchema :=
  if isUnionBoolean (constituents.filter (fun t => isDefined t)) then buildPrimitive "boolean"
  else .ok (buildEnum resolvedPairs)

/-! ## Claim theorems -/

/-- C7: isTranspilable returns true for a declaration node if and only if the
node is an interface, type alias, enum or class declaration; every other kind
of node is rejected. -/
theorem isTranspilable_iff_declaration_kind (node : TSNode) :
    isTranspilable node = true ↔
      (node.kind = kindInterfaceDeclaration ∨ node.kind = kindTypeAliasDeclaration ∨
       node.kind = kindEnumDeclaration ∨ node.kind = kindClassDeclaration) := by
  simp only [isTranspilable, isInterfaceDeclaration, isTypeAliasDeclaration,
    isEnumDeclaration, isClassDeclaration, Bool.or_eq_true, decide_eq_true_eq, or_assoc]

/-- C8: isDefined is pointwise the negation of isUndefined; both test only the
Undefined flag bit, so a node carrying the Undefined flag together with any
other flags is still classified as not defined. -/
theorem isDefined_eq_not_isUndefined :
    (∀ type : TSType, isDefined type = !isUndefined type) ∧
    (∀ type : TSType, isUndefined type = true ↔ type.flags &&& TypeFlags.Undefined ≠ 0) ∧
    (∀ type : TSType, type.flags &&& TypeFlags.Undefined ≠ 0 → isDefined type = false) := by
  refine ⟨fun type => rfl, fun type => by simp [isUndefined], fun type h => by simp [isDefined, h]⟩

/-- C8 witness: a node carrying the Undefined flag together with the String
flag is classified as not defined. -/
theorem isDefined_eq_not_isUndefined_witness :
    (TypeFlags.Undefined ||| TypeFlags.String) &&& TypeFlags.Undefined ≠ 0 ∧
    isDefined ⟨TypeFlags.Undefined ||| TypeFlags.String, 0, none, none, none, 0⟩ = false :=
  ⟨by decide, isDefined_eq_not_isUndefined.2.2 _ (by decide)⟩

/-- C9: every node satisfying isEnum also satisfies isUnion, since isEnum
requires both the EnumLiteral and the Union flags while isUnion requires only
the Union flag. -/
theorem isEnum_implies_isUnion (type : TSType) (h : isEnum type = true) :
    isUnion type = true := by
  simp only [isEnum, Bool.and_eq_true, decide_eq_true_eq] at h
  simp [isUnion, h.2]

/-- C9 witness: a node with the EnumLiteral and Union flags satisfies isEnum,
and therefore isUnion. -/
theorem isEnum_implies_isUnion_witness :
    isEnum ⟨TypeFlags.EnumLiteral ||| TypeFlags.Union, 0, none, none, none, 0⟩ = true ∧
    isUnion ⟨TypeFlags.EnumLiteral ||| TypeFlags.Union, 0, none, none, none, 0⟩ = true :=
  ⟨by decide, isEnum_implies_isUnion _ (by decide)⟩

/-- C2: buildPrimitive implements exactly the fixed mapping of the spec
('any' to the empty fragment, 'void'/'undefined' to type undefined, 'null' to
type null, the three base scalars to their respective type fragments, 'never'
to the unsatisfiable description/allOf fragment), and fails with a builder
error on every other primitive-kind tag. -/
theorem buildPrimitive_fixed_mapping :
    buildPrimitive "any" = .ok emptyFragment ∧
    buildPrimitive "void" = .ok (fragmentType "undefined") ∧
    buildPrimitive "undefined" = .ok (fragmentType "undefined") ∧
    buildPrimitive "null" = .ok (fragmentType "null") ∧
    buildPrimitive "string" = .ok (fragmentType "string") ∧
    buildPrimitive "number" = .ok (fragmentType "number") ∧
    buildPrimitive "boolean" = .ok (fragmentType "boolean") ∧
    buildPrimitive "never" = .ok neverFragment ∧
    ∀ s : String,
      s ∉ ["any", "void", "null", "undefined", "never", "string", "number", "boolean"] →
      ∃ e, buildPrimitive s = Except.error e := by
  refine ⟨rfl, rfl, ?_, rfl, ?_, ?_, ?_, rfl, ?_⟩
  · simp [buildPrimitive, fragmentType]
  · simp [buildPrimitive, fragmentType]
  · simp [buildPrimitive, fragmentType]
  · simp [buildPrimitive, fragmentType]
  · intro s hs
    simp only [List.mem_cons, List.not_mem_nil, or_false, not_or] at hs
    obtain ⟨h1, h2, h3, h4, h5, h6, h7, h8⟩ := hs
    simp only [buildPrimitive, if_neg h1, if_neg h2, if_neg h3, if_neg h4, if_neg h5,
      if_neg h6, if_neg h7, if_neg h8]
    exact ⟨_, rfl⟩

/-- C2 witness: the tag 'bigint' is outside the mapping and buildPrimitive
fails on it with a builder error. -/
theorem buildPrimitive_fixed_mapping_witness :
    ("bigint" : String) ∉
      (["any", "void", "null", "undefined", "never", "string", "number", "boolean"] : List String) ∧
    ∃ e, buildPrimitive "bigint" = Except.error e :=
  ⟨by decide, buildPrimitive_fixed_mapping.2.2.2.2.2.2.2.2 "bigint" (by decide)⟩

/-- C5 counterexample: for the unmapped tag 'bigint' buildPrimitive fails, but
the error is the fixed string 'Unsupported type please open an issue on
github', and the offending kind name 'bigint' does not appear in it. -/
theorem buildPrimitive_error_omits_kind_name :
    buildPrimitive "bigint" = Except.error "Unsupported type please open an issue on github" ∧
    ¬ List.IsInfix "bigint".toList "Unsupported type please open an issue on github".toList := by
  constructor
  · simp [buildPrimitive]
  · decide

/-- C5 amended: whenever a primitive kind with no mapping reaches the Builder,
buildPrimitive fails for that kind with the one fixed error message
'Unsupported type please open an issue on github' (which does not name the
offending kind). -/
theorem buildPrimitive_unmapped_fixed_error (s : String)
    (hs : s ∉ (["any", "void", "null", "undefined", "never", "string", "number", "boolean"] : List String)) :
    buildPrimitive s = Except.error "Unsupported type please open an issue on github" := by
  simp only [List.mem_cons, List.not_mem_nil, or_false, not_or] at hs
  obtain ⟨h1, h2, h3, h4, h5, h6, h7, h8⟩ := hs
  simp only [buildPrimitive, if_neg h1, if_neg h2, if_neg h3, if_neg h4, if_neg h5,
    if_neg h6, if_neg h7, if_neg h8]

/-- C5 amended witness: at the unmapped tag 'symbol' the fixed error message is
returned. -/
theorem buildPrimitive_unmapped_fixed_error_witness :
    buildPrimitive "symbol" = Except.error "Unsupported type please open an issue on github" :=
  buildPrimitive_unmapped_fixed_error "symbol" (by decide)

/-- C6: buildTuple returns a type-array fragment whose items field is the
positional list of the element fragments in input order, while buildArray
returns a type-array fragment whose items field is the single element
fragment, never a one-element list; in particular the spec's tuple
[string, number, boolean] and homogeneous string-array examples hold. -/
theorem buildTuple_positional_buildArray_single :
    (∀ l : List JsonSchema,
      buildTuple l =
        .complex none none none none (some (Sum.inr l)) none none none (some "array")) ∧
    (∀ f : JsonSchema,
      buildArray f =
        .complex none none none none (some (Sum.inl f)) none none none (some "array")) ∧
    buildTuple [fragmentType "string", fragmentType "number", fragmentType "boolean"] =
      .complex none none none none
        (some (Sum.inr [fragmentType "string", fragmentType "number", fragmentType "boolean"]))
        none none none (some "array") ∧
    buildArray (fragmentType "string") =
      .complex none none none none (some (Sum.inl (fragmentType "string")))
        none none none (some "array") ∧
    ∀ f : JsonSchema, buildArray f ≠ buildTuple [f] := by
  refine ⟨fun l => rfl, fun f => rfl, rfl, rfl, ?_⟩
  intro f h
  have h2 := congrArg JsonSchema.itemsField h
  simp [buildArray, buildTuple, JsonSchema.itemsField] at h2

/-- C6 witness: at the concrete element fragment {type:"string"}, the array
fragment differs from the one-element tuple fragment. -/
theorem buildTuple_positional_buildArray_single_witness :
    buildArray (fragmentType "string") ≠ buildTuple [fragmentType "string"] :=
  buildTuple_positional_buildArray_single.2.2.2.2 (fragmentType "string")

/-- C10: on two non-optional members that share the name 'a', buildObject
lists 'a' twice in required while properties holds a single entry for 'a'
carrying the later member's fragment: no deduplication of member names. -/
theorem buildObject_duplicate_name_no_dedup :
    buildObject [⟨false, "a", fragmentType "string"⟩, ⟨false, "a", fragmentType "number"⟩] =
      .complex (some false) none none none none none
        (some [("a", fragmentType "number")]) (some ["a", "a"]) (some "object") := by
  rfl

/-- C3 counterexample: a node with the Object flag, the Reference object flag,
a symbol named 'Array' and a Tuple-flagged target satisfies both isArray and
isTuple, so the two predicates are not mutually exclusive and isTuple does not
exclude the 'Array' name. -/
theorem isArray_isTuple_not_exclusive :
    isArray ⟨TypeFlags.Object, ObjectFlags.Reference, some ⟨"Array", 0⟩, none, none,
      ObjectFlags.Tuple⟩ = true ∧
    isTuple ⟨TypeFlags.Object, ObjectFlags.Reference, some ⟨"Array", 0⟩, none, none,
      ObjectFlags.Tuple⟩ = true := by
  constructor <;> decide

/-- C3 amended: isArray holds iff the node is an object reference whose symbol
exists and is named 'Array'; isTuple holds iff the node is an object reference
whose target carries the Tuple object flag, with no exclusion of the 'Array'
name, so the two predicates can overlap. -/
theorem isArray_isTuple_characterization (type : TSType) :
    (isArray type = true ↔
      (isObject type = true ∧ isReference type = true ∧
       ∃ s, type.symbol = some s ∧ s.escapedName = "Array")) ∧
    (isTuple type = true ↔
      (isObject type = true ∧ isReference type = true ∧
       type.targetObjectFlags &&& ObjectFlags.Tuple ≠ 0)) := by
  constructor
  · simp only [isArray, Bool.and_eq_true]
    constructor
    · rintro ⟨⟨hO, hR⟩, hS⟩
      refine ⟨hO, hR, ?_⟩
      cases hsym : type.symbol with
      | none => rw [hsym] at hS; exact absurd hS (by simp)
      | some s =>
        rw [hsym] at hS
        exact ⟨s, rfl, by simpa using hS⟩
    · rintro ⟨hO, hR, s, hsym, hname⟩
      refine ⟨⟨hO, hR⟩, ?_⟩
      rw [hsym]
      simpa using hname
  · simp [isTuple, Bool.and_eq_true, and_assoc]

/-! ## Helper lemmas for buildObject -/

/-- The single pass of buildObject splits into two independent folds, one for
properties and one for required. -/
theorem buildObject_foldl_split (ms : List SchemaProperty)
    (a : List (String × JsonSchema)) (b : List String) :
    ms.foldl (fun (st : List (String × JsonSchema) × List String) p =>
        (setProp st.1 p.name p.resolvedType,
         if !p.isOptional then st.2 ++ [p.name] else st.2)) (a, b) =
      (ms.foldl (fun x p => setProp x p.name p.resolvedType) a,
       ms.foldl (fun y p => if !p.isOptional then y ++ [p.name] else y) b) := by
  induction ms generalizing a b with
  | nil => rfl
  | cons m rest ih => simp only [List.foldl_cons, ih]

/-- Assigning a fresh key appends the pair at the end. -/
theorem setProp_not_mem (a : List (String × JsonSchema)) (n : String) (v : JsonSchema)
    (h : n ∉ a.map Prod.fst) : setProp a n v = a ++ [(n, v)] := by
  induction a with
  | nil => rfl
  | cons kw rest ih =>
    obtain ⟨k, w⟩ := kw
    simp only [List.map_cons, List.mem_cons, not_or] at h
    have hk : ¬(k = n) := fun e => h.1 e.symm
    simp [setProp, if_neg hk, ih h.2]

/-- With pairwise-distinct fresh member names, the properties fold appends the
(name, fragment) pairs in input order. -/
theorem foldl_setProp_eq_append (ms : List SchemaProperty) :
    ∀ a : List (String × JsonSchema), (ms.map SchemaProperty.name).Nodup →
      (∀ p ∈ ms, p.name ∉ a.map Prod.fst) →
      ms.foldl (fun x p => setProp x p.name p.resolvedType) a =
        a ++ ms.map (fun p => (p.name, p.resolvedType)) := by
  induction ms with
  | nil => intro a _ _; simp
  | cons m rest ih =>
    intro a hnd hfresh
    simp only [List.map_cons, List.nodup_cons] at hnd
    rw [List.foldl_cons,
      setProp_not_mem a m.name m.resolvedType (hfresh m (List.mem_cons_self _ _)),
      ih (a ++ [(m.name, m.resolvedType)]) hnd.2 ?_]
    · simp
    · intro p hp
      simp only [List.map_append, List.mem_append, List.map_cons, List.map_nil,
        List.mem_singleton, not_or]
      refine ⟨hfresh p (List.mem_cons_of_mem _ hp), fun he => ?_⟩
      exact hnd.1 (by rw [← he]; exact List.mem_map_of_mem _ hp)

/-- The required fold collects the names of the non-optional members in input
order. -/
theorem foldl_required_eq_filter (ms : List SchemaProperty) :
    ∀ b : List String,
      ms.foldl (fun y p => if !p.isOptional then y ++ [p.name] else y) b =
        b ++ (ms.filter (fun p => !p.isOptional)).map SchemaProperty.name := by
  induction ms with
  | nil => intro b; simp
  | cons m rest ih =>
    intro b
    rw [List.foldl_cons, ih, List.filter_cons]
    cases hm : m.isOptional with
    | true => simp [hm]
    | false => simp [hm]

/-- C4: on members with pairwise-distinct names, buildObject returns a
type-object fragment with additionalProperties false, properties holding every
member's fragment under its name in input order, and required equal to exactly
the names of the non-optional members in input order, the required key being
omitted entirely (not an empty array) when no member is required. -/
theorem buildObject_members_spec (properties : List SchemaProperty)
    (h : (properties.map SchemaProperty.name).Nodup) :
    buildObject properties =
      .complex (some false) none none none none none
        (some (properties.map (fun p => (p.name, p.resolvedType))))
        (if (properties.filter (fun p => !p.isOptional)).map SchemaProperty.name = [] then none
         else some ((properties.filter (fun p => !p.isOptional)).map SchemaProperty.name))
        (some "object") := by
  unfold buildObject
  rw [buildObject_foldl_split, foldl_setProp_eq_append properties [] h (by simp),
    foldl_required_eq_filter]
  simp [List.length_eq_zero]

/-- C4 witness: for the spec's example, a required member a of type string and
an optional member b of type number, the fragment has required ["a"] and
properties holding both a and b; and an all-optional object omits required. -/
theorem buildObject_members_spec_witness :
    (([⟨false, "a", fragmentType "string"⟩,
       ⟨true, "b", fragmentType "number"⟩] : List SchemaProperty).map
        SchemaProperty.name).Nodup ∧
    buildObject [⟨false, "a", fragmentType "string"⟩, ⟨true, "b", fragmentType "number"⟩] =
      .complex (some false) none none none none none
        (some [("a", fragmentType "string"), ("b", fragmentType "number")])
        (some ["a"]) (some "object") ∧
    buildObject [⟨true, "b", fragmentType "number"⟩] =
      .complex (some false) none none none none none
        (some [("b", fragmentType "number")]) none (some "object") :=
  ⟨by decide,
   by simpa using
     (buildObject_members_spec
       [⟨false, "a", fragmentType "string"⟩, ⟨true, "b", fragmentType "number"⟩] (by decide)),
   by simpa using
     (buildObject_members_spec [⟨true, "b", fragmentType "number"⟩] (by decide))⟩

/-- C1: for a pair of constituent nodes (already filtered to exclude
undefineds), isUnionBoolean is true iff both are literals and one is the
synthetic true literal (no concrete value, internal name tag 'true') and the
other the synthetic false literal, in either order; isUnionBoolean is false on
any constituent list whose length is not exactly 2; and such a pair resolves
to exactly {type:"boolean"}, which is never an enum fragment. -/
theorem isUnionBoolean_pair_characterization :
    (∀ typeA typeB : TSType,
      isUnionBoolean [typeA, typeB] = true ↔
        (isLiteral typeA = true ∧ isLiteral typeB = true ∧
         ((typeA.value = none ∧ typeA.intrinsicName = some "true" ∧
           typeB.value = none ∧ typeB.intrinsicName = some "false") ∨
          (typeB.value = none ∧ typeB.intrinsicName = some "true" ∧
           typeA.value = none ∧ typeA.intrinsicName = some "false")))) ∧
    (∀ types : List TSType, types.length ≠ 2 → isUnionBoolean types = false) ∧
    (∀ typeA typeB : TSType, ∀ pairs : List (String × JsonSchema),
      isDefined typeA = true → isDefined typeB = true →
      isUnionBoolean [typeA, typeB] = true →
      resolveUnion [typeA, typeB] pairs = Except.ok (fragmentType "boolean") ∧
      ∀ l : List (String × JsonSchema), fragmentType "boolean" ≠ buildEnum l) := by
  refine ⟨?_, ?_, ?_⟩
  · intro typeA typeB
    show (if !isLiteral typeA || !isLiteral typeB then false
          else (isLiteralTrue typeA && isLiteralFalse typeB) ||
               (isLiteralTrue typeB && isLiteralFalse typeA)) = true ↔ _
    cases hA : isLiteral typeA <;> cases hB : isLiteral typeB <;>
      simp [hA, hB, isLiteralTrue, isLiteralFalse, and_assoc]
  · intro types h
    cases types with
    | nil => rfl
    | cons a t =>
      cases t with
      | nil => rfl
      | cons b t2 =>
        cases t2 with
        | nil => exact absurd rfl h
        | cons c t3 => rfl
  · intro typeA typeB pairs hA hB hU
    constructor
    · have hfilter : List.filter (fun t => isDefined t) [typeA, typeB] = [typeA, typeB] := by
        simp [List.filter_cons, hA, hB]
      simp [resolveUnion, hfilter, hU, buildPrimitive, fragmentType]
    · intro l hEq
      have h2 := congrArg JsonSchema.enumField hEq
      simp [fragmentType, buildEnum, JsonSchema.enumField] at h2

/-- C1 witness: the synthetic true and false literals (BooleanLiteral flag, no
value, intrinsic names 'true' and 'false') form a boolean-union pair in either
order, a one-element list is rejected, and the pair resolves to
{type:"boolean"}, not an enum fragment. -/
theorem isUnionBoolean_pair_characterization_witness :
    isUnionBoolean [⟨TypeFlags.BooleanLiteral, 0, none, none, some "true", 0⟩,
      ⟨TypeFlags.BooleanLiteral, 0, none, none, some "false", 0⟩] = true ∧
    isUnionBoolean [⟨TypeFlags.BooleanLiteral, 0, none, none, some "true", 0⟩] = false ∧
    resolveUnion [⟨TypeFlags.BooleanLiteral, 0, none, none, some "true", 0⟩,
      ⟨TypeFlags.BooleanLiteral, 0, none, none, some "false", 0⟩] [] =
      Except.ok (fragmentType "boolean") ∧
    fragmentType "boolean" ≠ buildEnum [] :=
  ⟨(isUnionBoolean_pair_characterization.1
      ⟨TypeFlags.BooleanLiteral, 0, none, none, some "true", 0⟩
      ⟨TypeFlags.BooleanLiteral, 0, none, none, some "false", 0⟩).mpr (by decide),
   isUnionBoolean_pair_characterization.2.1
     [⟨TypeFlags.BooleanLiteral, 0, none, none, some "true", 0⟩] (by decide),
   (isUnionBoolean_pair_characterization.2.2
      ⟨TypeFlags.BooleanLiteral, 0, none, none, some "true", 0⟩
      ⟨TypeFlags.BooleanLiteral, 0, none, none, some "false", 0⟩
      [] (by decide) (by decide) (by decide)).1,
   (isUnionBoolean_pair_characterization.2.2
      ⟨TypeFlags.BooleanLiteral, 0, none, none, some "true", 0⟩
      ⟨TypeFlags.BooleanLiteral, 0, none, none, some "false", 0⟩
      [] (by decide) (by decide) (by decide)).2 []⟩
